import Mathlib

/-!
Shallow embedding of the melisa library's gateway / REST core
(src/melisa/core/gateway.py, src/melisa/core/http.py,
src/melisa/core/ratelimiter.py) and proofs about the behaviour the
specification describes.  Times and durations are rationals (seconds or
milliseconds, matching the Python floats used in the source); Python
exceptions are modelled with `Except`.
-/

namespace Melisa

/-- Python exceptions that the embedded code can raise. -/
inductive PyErr
  | typeError            -- e.g. int(None)
  | attributeError       -- attribute lookup miss on an object
  | keyError             -- dict indexing miss
  deriving DecidableEq, Repr

namespace Ratelimiter

/-- `RateLimitBucket` dataclass from src/melisa/core/ratelimiter.py:
exactly the five declared fields. -/
structure RateLimitBucket where
  limit : Int
  remaining : Int
  reset : Rat
  reset_after : Rat
  since_timestamp : Rat
  deriving DecidableEq, Repr

/-- Python attribute lookup (by name) on a `RateLimitBucket` instance.
A dataclass instance has exactly its declared fields as attributes, so
any other name raises `AttributeError`.  (Numeric attributes are all
returned as rationals; the two integer fields are coerced.) -/
def RateLimitBucket.getattr (b : RateLimitBucket) (name : String) :
    Except PyErr Rat :=
  if name = "limit" then .ok (b.limit : Rat)
  else if name = "remaining" then .ok (b.remaining : Rat)
  else if name = "reset" then .ok b.reset
  else if name = "reset_after" then .ok b.reset_after
  else if name = "since_timestamp" then .ok b.since_timestamp
  else .error .attributeError

/-- Observable outcome of `wait_until_not_ratelimited` when it returns. -/
inductive WaitResult
  | immediate              -- returned without suspending
  | slept (duration : Rat) -- suspended for `duration` seconds, then returned
  deriving DecidableEq, Repr

/-- `RateLimiter` state: the `(endpoint, method) -> bucket_id` index and the
`bucket_id -> bucket` table. -/
structure RateLimiter where
  bucket_map : List ((String × String) × String)
  buckets : List (String × RateLimitBucket)
  deriving Repr

/-- `dict.get` on the `(endpoint, method) -> bucket_id` index. -/
def RateLimiter.mapGet (rl : RateLimiter) (endpoint method : String) :
    Option String :=
  (rl.bucket_map.find? (fun p => p.1 = (endpoint, method))).map (·.2)

/-- `self.buckets[bucket_id]` (dict indexing raises `KeyError` on a miss). -/
def RateLimiter.bucketsItem (rl : RateLimiter) (bucket_id : String) :
    Except PyErr RateLimitBucket :=
  match rl.buckets.find? (fun p => p.1 = bucket_id) with
  | none => .error .keyError
  | some p => .ok p.2

/-- `RateLimiter.wait_until_not_ratelimited(endpoint, method)` from
src/melisa/core/ratelimiter.py, evaluated at wall-clock time `now`
(`time()`).  The source reads `bucket.reset_after_timestamp`, which is not
a field of the `RateLimitBucket` dataclass, so that attribute access is
routed through `RateLimitBucket.getattr`. -/
def wait_until_not_ratelimited (rl : RateLimiter)
    (endpoint method : String) (now : Rat) :
    Except PyErr WaitResult :=
  match rl.mapGet endpoint method with
  | none => .ok .immediate            -- `if not bucket_id: return`
  | some bucket_id =>
    if bucket_id = "" then .ok .immediate  -- empty id is falsy in Python
    else
      match rl.bucketsItem bucket_id with
      | .error e => .error e
      | .ok bucket =>
        if bucket.remaining = 0 then
          -- sleep_time = time() - bucket.since_timestamp
          --              + bucket.reset_after_timestamp
          match bucket.getattr "reset_after_timestamp" with
          | .error e => .error e
          | .ok v => .ok (.slept (now - bucket.since_timestamp + v))
        else .ok .immediate

end Ratelimiter

namespace Http

/-- Resolution of the retry counter at the top of `HTTPClient.__send`:
`ttl = _ttl or self.max_ttl`.  Python's `or` falls back to `max_ttl` when
`_ttl` is `None` and also when it is `0`, because `0` is falsy. -/
def resolve_ttl (max_ttl : Int) : Option Int → Int
  | none => max_ttl
  | some t => if t = 0 then max_ttl else t

/-- Terminal outcome of the retry loop in the all-server-errors scenario. -/
inductive SendOutcome
  | maxRetries (endpoint : String)
      -- the `ttl == 0` guard raised ServerError naming the route
  | runningOut
      -- the model's fuel ran out while the code would still be retrying
  deriving DecidableEq, Repr

/-- The `HTTPClient.__send` / `__handle_response` recursion from
src/melisa/core/http.py, specialised to the scenario where every response
is a generic server-side error (not `ok`, status not in
`__http_exceptions`).  `fuel` bounds how many rounds we unfold; each list
entry is the delay in seconds slept after one issued attempt
(`retry_in = 1 + (self.max_ttl - _ttl) * 2`), after which the code recurses
with `_ttl = _ttl - 1`. -/
def send_all_server_errors (max_ttl : Int) (endpoint : String) :
    Nat → Option Int → List Int × SendOutcome
  | 0, _ => ([], .runningOut)
  | fuel + 1, t =>
    let ttl := resolve_ttl max_ttl t
    if ttl = 0 then ([], .maxRetries endpoint)
    else
      let retry_in := 1 + (max_ttl - ttl) * 2
      let r := send_all_server_errors max_ttl endpoint fuel (some (ttl - 1))
      (retry_in :: r.1, r.2)

/-- Helper invariant: starting from the initial call (`_ttl = None`) with
`max_ttl = 5`, the resolved ttl is always in 1..5, so the
`ttl == 0` raise is unreachable and every round of fuel issues exactly one
more attempt. -/
theorem send_all_server_errors_unbounded (endpoint : String) :
    ∀ (fuel : Nat) (t : Option Int),
      (t = none ∨ ∃ k, t = some k ∧ 0 ≤ k ∧ k ≤ 4) →
      (send_all_server_errors 5 endpoint fuel t).2 = .runningOut ∧
      (send_all_server_errors 5 endpoint fuel t).1.length = fuel := by
  intro fuel
  induction fuel with
  | zero => intro t _; exact ⟨rfl, rfl⟩
  | succ n ih =>
    intro t ht
    have httl : resolve_ttl 5 t ≠ 0 ∧
        (0 ≤ resolve_ttl 5 t - 1 ∧ resolve_ttl 5 t - 1 ≤ 4) := by
      rcases ht with h | ⟨k, hk, hk0, hk4⟩
      · subst h; simp [resolve_ttl]
      · subst hk
        by_cases h0 : k = 0
        · subst h0; simp [resolve_ttl]
        · simp only [resolve_ttl, if_neg h0]
          refine ⟨h0, by omega, by omega⟩
    have hrec := ih (some (resolve_ttl 5 t - 1))
      (Or.inr ⟨resolve_ttl 5 t - 1, rfl, httl.2.1, httl.2.2⟩)
    simp only [send_all_server_errors, if_neg httl.1]
    exact ⟨hrec.1, by simp [hrec.2]⟩

end Http

namespace Gateway

-- Opcode constants from the Gateway class.
def DISPATCH : Nat := 0
def HEARTBEAT : Nat := 1
def IDENTIFY : Nat := 2
def PRESENCE_UPDATE : Nat := 3
def VOICE_UPDATE : Nat := 4
def RESUME : Nat := 6
def RECONNECT : Nat := 7
def REQUEST_MEMBERS : Nat := 8
def INVALID_SESSION : Nat := 9
def HELLO : Nat := 10
def HEARTBEAT_ACK : Nat := 11

/-- The presence dict built by `Gateway.generate_presence`. -/
structure PresenceData where
  since : Rat
  afk : Bool
  has_activities : Bool
  status : Option String
  deriving DecidableEq, Repr

/-- The `self.auth` dict built in `Gateway.__init__` — the identify
payload.  Its keys are token, intents, properties, compress, shard and
presence; note there is no session_id key. -/
structure AuthData where
  token : String
  intents : Int
  properties_os : String
  properties_browser : String
  properties_device : String
  compress : Bool
  shard : Int × Int
  presence : PresenceData
  deriving DecidableEq, Repr

/-- The `"d"` payloads of the outbound messages the Gateway builds. -/
inductive PayloadData
  | identifyData (auth : AuthData)
  | resumeData (token : String) (session_id : Option String)
      (seq : Option Int)
  | heartbeatData (seq : Option Int)
  | presenceUpdateData (p : PresenceData)
  deriving DecidableEq, Repr

/-- Value of a `"session_id"` key in an outbound payload, if the payload
carries one at all.  Only the RESUME dict has such a key; the identify
`auth` dict does not. -/
def sessionIdField : PayloadData → Option (Option String)
  | .resumeData _ sid _ => some sid
  | _ => none

/-- An outbound gateway message as serialised by `Gateway.opcode`:
`{"op": opcode, "d": payload}`. -/
structure OutMessage where
  op : Nat
  d : PayloadData
  deriving DecidableEq, Repr

/-- Externally visible effects of a gateway coroutine, in program order. -/
inductive Effect
  | send (m : OutMessage)             -- await self.send(...) / ws.send_str
  | wsClose (code : Int)              -- await self.ws.close(code=code)
  | sleep (seconds : Rat)             -- await asyncio.sleep(...)
  | spawnHeartbeatLoop (interval : Rat)
      -- self.loop.create_task(self.send_heartbeat(interval))
  | spawnReceive                      -- self.loop.create_task(self.receive())
  | dispatchEvent (event_type : String)
      -- ensure_future(event_to_call(self.client, self, data["d"]))
  deriving DecidableEq, Repr

/-- Mutable state of a `Gateway` instance (the fields the claims are
about). -/
structure GState where
  token : String
  auth : AuthData
  sequence : Option Int
  session_id : Option String
  latency : Option Rat          -- none models the initial float("inf")
  last_send : Rat               -- self._last_send
  not_closed : Bool
  buffer : List Nat             -- self._buffer (bytes)
  ws_exists : Bool              -- self.ws is not None
  ws_closed : Bool              -- self.ws.closed
  deriving DecidableEq, Repr

/-- `self.__raise_close_codes` — the close-code to exception table. -/
inductive GatewayExc
  | loginFailure (msg : String)
  | gatewayError (msg : String)
  | privilegedIntentsRequired (msg : String)
  deriving DecidableEq, Repr

/-- Any exception a gateway coroutine can raise: a Python builtin error or
one of the library's own gateway exceptions. -/
inductive RaisedExc
  | py (e : PyErr)
  | gw (e : GatewayExc)
  deriving DecidableEq, Repr

/-- Exception propagating out of a gateway coroutine, paired with the
state at the moment it was raised. -/
abbrev GResult := Except (RaisedExc × GState) (GState × List Effect)

def raise_close_codes : Int → Option GatewayExc
  | 4004 => some (.loginFailure "Token is not valid")
  | 4010 => some (.gatewayError "Invalid shard")
  | 4011 => some (.gatewayError "Sharding required")
  | 4012 => some (.gatewayError "Invalid API version")
  | 4013 => some (.gatewayError "Invalid intents")
  | 4014 => some (.privilegedIntentsRequired "Disallowed intents")
  | _ => none

/-- The RESUME payload built by `Gateway.resume` (and by
`Gateway.send_identify` when resuming): token, session_id, seq. -/
def resumeMessage (st : GState) : OutMessage :=
  ⟨RESUME, .resumeData st.token st.session_id st.sequence⟩

/-- The IDENTIFY payload: opcode 2 carrying `self.auth`. -/
def identifyMessage (st : GState) : OutMessage :=
  ⟨IDENTIFY, .identifyData st.auth⟩

/-- `Gateway.send_identify(resume)`: sends RESUME with the stored
session_id/sequence when `resume`, otherwise sends IDENTIFY with
`self.auth`. -/
def send_identify (st : GState) (resume : Bool) : List Effect :=
  if resume then [.send (resumeMessage st)] else [.send (identifyMessage st)]

/-- `Gateway.resume`: sends the RESUME payload. -/
def resume_coro (st : GState) : List Effect :=
  [.send (resumeMessage st)]

/-- `Gateway.connect`: opens the socket, resets the zlib context and the
buffer, marks the session open, sends the identify payload and spawns the
receive task.  (It then enters the `check_heartbeating` watchdog loop,
which produces no further outbound messages by itself and is not modelled
past this point.) -/
def connect (st : GState) : GState × List Effect :=
  let st' : GState :=
    { st with buffer := [], not_closed := true,
              ws_exists := true, ws_closed := false }
  (st', send_identify st' false ++ [.spawnReceive])

/-- The state `connect` leaves behind: fresh buffer and zlib context,
socket open, session marked not-closed. -/
def reconnectState (st : GState) : GState :=
  { st with buffer := [], not_closed := true, ws_exists := true, ws_closed := false }

/-- `Gateway.handle_close(code)`: 4009 resumes; a code in
`__raise_close_codes` raises the mapped exception (so no reconnect
happens); any other code clears `not_closed` and performs a full
`connect()`. -/
def handle_close (st : GState) (code : Int) : GResult :=
  if code = 4009 then .ok (st, resume_coro st)
  else
    match raise_close_codes code with
    | some e => .error (.gw e, st)
    | none =>
      let st' := { st with not_closed := false }
      let r := connect st'
      .ok (r.1, r.2)

/-- `Gateway.close(code)`: if a socket exists, mark the session closed and
close the socket; in every case clear the decompression buffer.  (aiohttp's
`ws.close` on an already-closed socket simply returns `False`; it does not
raise, so the whole method is total.) -/
def close_method (st : GState) (code : Int) : GState × List Effect :=
  if st.ws_exists then
    ({ st with not_closed := false, ws_closed := true, buffer := [] },
     [.wsClose code])
  else
    ({ st with buffer := [] }, [])

/-- `Gateway.send_hello(data)`: `interval = heartbeat_interval / 1000`,
then `await asyncio.sleep((interval - 2000) / 1000)`, then start the
recurring heartbeat loop with that interval. -/
def send_hello_interval (heartbeat_interval : Rat) : Rat :=
  heartbeat_interval / 1000

def send_hello_sleep_seconds (heartbeat_interval : Rat) : Rat :=
  (send_hello_interval heartbeat_interval - 2000) / 1000

def send_hello_effects (heartbeat_interval : Rat) : List Effect :=
  [.sleep (send_hello_sleep_seconds heartbeat_interval),
   .spawnHeartbeatLoop (send_hello_interval heartbeat_interval)]

/-- `asyncio.sleep(d)` waits `d` seconds, but a non-positive delay returns
immediately: the actual wait is `max d 0`. -/
def asyncio_sleep_duration (d : Rat) : Rat := max d 0

/-- Milliseconds elapsed between receiving HELLO and the first heartbeat
send: the (clamped) `send_hello` sleep, converted to ms. -/
def first_heartbeat_delay_ms (heartbeat_interval : Rat) : Rat :=
  1000 * asyncio_sleep_duration (send_hello_sleep_seconds heartbeat_interval)

/-- `Gateway.send_heartbeat(interval)`: if the socket is open, send a
HEARTBEAT carrying the current sequence, record the send time, sleep
`interval` seconds and reschedule itself with the same interval — so
consecutive heartbeats are `interval` seconds apart. -/
def send_heartbeat (st : GState) (interval : Rat) (now : Rat) :
    GState × List Effect :=
  if st.ws_closed then (st, [])
  else
    ({ st with last_send := now },
     [.send ⟨HEARTBEAT, .heartbeatData st.sequence⟩,
      .sleep interval, .spawnHeartbeatLoop interval])

/-- Milliseconds between consecutive heartbeats once the loop is running
with `interval = heartbeat_interval / 1000` seconds. -/
def heartbeat_period_ms (heartbeat_interval : Rat) : Rat :=
  1000 * send_hello_interval heartbeat_interval

/-- `int(x)` on an optional value: `int(None)` raises `TypeError`. -/
def pyInt : Option Int → Except PyErr Int
  | none => .error .typeError
  | some n => .ok n

/-- `x.lower()` on an optional string: `None.lower()` raises
`AttributeError`. -/
def pyLower : Option String → Except PyErr String
  | none => .error .attributeError
  | some s => .ok s.toLower

/-- The `"d"` field of an inbound message, as far as the dispatcher
inspects it: HELLO carries a dict with `heartbeat_interval`; everything
else is opaque to the Gateway. -/
inductive DData
  | helloD (heartbeat_interval : Rat)
  | payloadD (id : Nat)
  deriving DecidableEq, Repr

/-- An inbound gateway message `{"op", "s", "t", "d"}` (`s` and `t` are
null on non-DISPATCH messages, and may be null on the wire generally). -/
structure InMessage where
  op : Nat
  s : Option Int
  t : Option String
  d : DData
  deriving DecidableEq, Repr

/-- `data["d"]["heartbeat_interval"]` (raises `KeyError` when `d` is not
the HELLO dict). -/
def helloInterval : DData → Except PyErr Rat
  | .helloD h => .ok h
  | .payloadD _ => .error .keyError

/-- `Gateway.handle_data(data)`: the opcode dispatcher.
`listeners` models the external per-event listener registry
(`self.listeners.get(event_type)` is `some` exactly when
`listeners event_type = true`); `now` is `time.perf_counter()`. -/
def handle_data (listeners : String → Bool) (now : Rat)
    (st : GState) (data : InMessage) : GResult :=
  if data.op = DISPATCH then
    -- self.sequence = int(data["s"]) : runs before anything else
    match pyInt data.s with
    | .error e => .error (.py e, st)
    | .ok n =>
      let st' := { st with sequence := some n }
      match pyLower data.t with
      | .error e => .error (.py e, st')
      | .ok event_type =>
        -- the event is dispatched only when a listener is registered;
        -- either way the state update is the same
        .ok (st', if listeners event_type then [.dispatchEvent event_type]
                  else [])
  else if data.op = INVALID_SESSION then
    match handle_close st 4000 with
    | .error e => .error e
    | .ok (st', effs) => .ok (st', .wsClose 4000 :: effs)
  else if data.op = HELLO then
    match helloInterval data.d with
    | .error e => .error (.py e, st)
    | .ok h => .ok (st, send_hello_effects h)
  else if data.op = HEARTBEAT_ACK then
    .ok ({ st with latency := some (now - st.last_send) }, [])
  else if data.op = RECONNECT then
    .ok (close_method st 1012)
  else
    .ok (st, [])

/-- Fold `handle_data` over a list of inbound messages, keeping only the
session state (effects are accumulated elsewhere). -/
def run_dispatches (listeners : String → Bool) (now : Rat) :
    GState → List InMessage → Except (RaisedExc × GState) GState
  | st, [] => .ok st
  | st, m :: ms =>
    match handle_data listeners now st m with
    | .error e => .error e
    | .ok (st', _) => run_dispatches listeners now st' ms

/-- The recorded `sequence` value after each processed message. -/
def dispatch_seq_trace (listeners : String → Bool) (now : Rat) :
    GState → List InMessage → Except (RaisedExc × GState) (List (Option Int))
  | _, [] => .ok []
  | st, m :: ms =>
    match handle_data listeners now st m with
    | .error e => .error e
    | .ok (st', _) =>
      match dispatch_seq_trace listeners now st' ms with
      | .error e => .error e
      | .ok tr => .ok (st'.sequence :: tr)

/-- A well-formed DISPATCH message with sequence number `s`. -/
def mkDispatch (s : Int) : InMessage :=
  ⟨DISPATCH, some s, some "MESSAGE_CREATE", .payloadD 0⟩

/-- `zlib.error` — the only exception `parse_websocket_message`
catches. -/
inductive ZlibError
  | zlibError
  deriving DecidableEq, Repr

/-- The 4-byte zlib stream-flush marker checked on the tail of every
binary frame. -/
def zlibFlushMarker : List Nat := [0x00, 0x00, 0xff, 0xff]

/-- A raw websocket frame, binary or text. -/
inductive WsData
  | binary (b : List Nat)
  | text (s : String)
  deriving DecidableEq, Repr

/-- Result of one `parse_websocket_message` call: the buffer it leaves
behind and the decoded document (if any). -/
structure ParseResult (J : Type) where
  buffer : List Nat
  result : Option J
  deriving DecidableEq, Repr

/-- `Gateway.parse_websocket_message(msg)` from src/melisa/core/gateway.py.
A binary frame is appended to `self._buffer`; if the frame is shorter than
4 bytes or does not end in the flush marker, `None` is returned and the
buffer is kept.  Otherwise the whole buffer is run through the (stateful,
connection-long) zlib context — abstracted as `decompress` — decoded as
UTF-8 and parsed as JSON (abstracted as `loadsBytes`), and the buffer is
reset.  A `zlib.error` is caught and turned into `None`, with the buffer
left as extended.  A text frame is parsed directly (`loadsText`). -/
def parse_websocket_message {J : Type}
    (decompress : List Nat → Except ZlibError (List Nat))
    (loadsBytes : List Nat → J) (loadsText : String → J)
    (buffer : List Nat) : WsData → ParseResult J
  | .text s => ⟨buffer, some (loadsText s)⟩
  | .binary msg =>
    let buffer' := buffer ++ msg
    if msg.length < 4 ∨ msg.drop (msg.length - 4) ≠ zlibFlushMarker then
      ⟨buffer', none⟩
    else
      match decompress buffer' with
      | .error _ => ⟨buffer', none⟩
      | .ok out => ⟨[], some (loadsBytes out)⟩

/-- A concrete presence dict (for concrete evaluations). -/
def presence0 : PresenceData := ⟨0, false, false, none⟩

/-- A concrete auth dict. -/
def auth0 : AuthData :=
  ⟨"tok", 0, "linux", "MelisaPy", "Melisa Python Library", true, (0, 1),
   presence0⟩

/-- A concrete connected gateway state. -/
def st0 : GState :=
  { token := "tok", auth := auth0, sequence := none, session_id := none,
    latency := none, last_send := 0, not_closed := true, buffer := [],
    ws_exists := true, ws_closed := false }

end Gateway

namespace Ratelimiter

/-- A bucket whose quota is exhausted: at wall-clock time 100 its reset
lies 5 seconds in the future (`since_timestamp = 100`,
`reset_after = 5`). -/
def bucketExhausted : RateLimitBucket := ⟨5, 0, 0, 5, 100⟩

/-- The same bucket with remaining quota. -/
def bucketFresh : RateLimitBucket := ⟨5, 3, 0, 5, 100⟩

def rlExhausted : RateLimiter :=
  ⟨[(("channels/1/messages", "POST"), "b1")], [("b1", bucketExhausted)]⟩

def rlFresh : RateLimiter :=
  ⟨[(("channels/1/messages", "POST"), "b1")], [("b1", bucketFresh)]⟩

end Ratelimiter

open Gateway Ratelimiter Http

/-- C1: on HELLO with heartbeat_interval 45000 ms the claim schedules the
first heartbeat 43000 ms later and recurring ones every 45000 ms.  The
code divides by 1000 twice: `send_hello` sleeps
`(45000 / 1000 - 2000) / 1000 = -1.955` seconds (a non-positive
`asyncio.sleep`, i.e. no delay at all) before the first heartbeat, not
43000 ms; the recurring period (45000 ms) is as claimed. -/
theorem C1_hello_heartbeat_timing :
    handle_data (fun _ => false) 0 st0 ⟨HELLO, none, none, .helloD 45000⟩ =
      .ok (st0, [.sleep (send_hello_sleep_seconds 45000),
                 .spawnHeartbeatLoop 45]) ∧
    send_hello_sleep_seconds 45000 = -(391 / 200) ∧
    first_heartbeat_delay_ms 45000 = 0 ∧
    first_heartbeat_delay_ms 45000 ≠ 43000 ∧
    heartbeat_period_ms 45000 = 45000 ∧
    (send_heartbeat st0 (send_hello_interval 45000) 1).2 =
      [.send ⟨HEARTBEAT, .heartbeatData none⟩, .sleep 45,
       .spawnHeartbeatLoop 45] := by
  have hval : send_hello_sleep_seconds 45000 = -(391 / 200) := by
    norm_num [send_hello_sleep_seconds, send_hello_interval]
  have hint : send_hello_interval 45000 = 45 := by
    norm_num [send_hello_interval]
  refine ⟨?_, hval, ?_, ?_, ?_, ?_⟩
  · simp [handle_data, DISPATCH, INVALID_SESSION, HELLO, helloInterval,
      send_hello_effects, hint]
  · rw [first_heartbeat_delay_ms, hval, asyncio_sleep_duration]
    norm_num
  · rw [first_heartbeat_delay_ms, hval, asyncio_sleep_duration]
    norm_num
  · norm_num [heartbeat_period_ms, send_hello_interval]
  · simp [send_heartbeat, st0, hint]

/-- C2: the claim says an exhausted bucket (remaining = 0, reset 5 s in
the future) makes `wait_until_not_ratelimited` suspend about 5 s and
return without raising.  In fact the code reads
`bucket.reset_after_timestamp`, which is not a field of the
`RateLimitBucket` dataclass (the field is `reset_after`), so the exhausted
branch raises `AttributeError` instead of sleeping.  The immediate-return
cases (no bucket indexed, or remaining > 0) behave as claimed. -/
theorem C2_wait_attribute_error :
    wait_until_not_ratelimited ⟨[], []⟩ "channels/1/messages" "POST" 100 =
      .ok .immediate ∧
    wait_until_not_ratelimited rlFresh "channels/1/messages" "POST" 100 =
      .ok .immediate ∧
    wait_until_not_ratelimited rlExhausted "channels/1/messages" "POST" 100 =
      .error .attributeError := by
  refine ⟨rfl, ?_, ?_⟩ <;>
    simp [wait_until_not_ratelimited, RateLimiter.mapGet,
      RateLimiter.bucketsItem, rlFresh, rlExhausted, bucketFresh,
      bucketExhausted, RateLimitBucket.getattr]

/-- C3: the claim says a client with ttl = 5 receiving only generic
server errors performs exactly 5 attempts (delays 1, 3, 5, 7 s) and then
raises the terminal max-retries error.  Because `ttl = _ttl or max_ttl`
treats the exhausted counter `0` as falsy and resets it to `max_ttl`, the
`ttl == 0` guard is unreachable from the initial call: the loop performs
one attempt per unfolding forever (delays cycling 1, 3, 5, 7, 9) and the
terminal error is never raised. -/
theorem C3_retry_never_terminates :
    (∀ (endpoint : String) (fuel : Nat),
      (send_all_server_errors 5 endpoint fuel none).2 = .runningOut ∧
      (send_all_server_errors 5 endpoint fuel none).1.length = fuel) ∧
    (send_all_server_errors 5 "guilds" 12 none).1 =
      [1, 3, 5, 7, 9, 1, 3, 5, 7, 9, 1, 3] := by
  constructor
  · intro endpoint fuel
    exact send_all_server_errors_unbounded endpoint fuel none (Or.inl rfl)
  · decide

/-- C4: close code 4009 makes the next outbound payload a RESUME carrying
the stored session_id and sequence; an INVALID_SESSION message closes the
socket with code 4000 and reconnects, so the next outbound handshake
payload is an IDENTIFY (the auth dict), which carries no session_id
key. -/
theorem C4_resume_vs_identify (st : GState) (listeners : String → Bool)
    (now : Rat) (s : Option Int) (t : Option String) (d : DData) :
    handle_close st 4009 = .ok (st, [.send (resumeMessage st)]) ∧
    (resumeMessage st).op = RESUME ∧
    (resumeMessage st).d = .resumeData st.token st.session_id st.sequence ∧
    ∃ st', handle_data listeners now st ⟨INVALID_SESSION, s, t, d⟩ =
        .ok (st', [.wsClose 4000, .send (identifyMessage st'),
                   .spawnReceive]) ∧
      (identifyMessage st').op = IDENTIFY ∧
      sessionIdField (identifyMessage st').d = none := by
  exact ⟨rfl, rfl, rfl, ⟨reconnectState st, rfl, rfl, rfl⟩⟩

/-- C5 counterexample: feeding the dispatcher the DISPATCH messages with
s = 5 then s = 3 makes the recorded sequence go from 5 down to 3 — the
claimed unconditional non-decrease is false (the code assigns the incoming
s, it never guards against regression). -/
theorem C5_sequence_regression_counterexample :
    dispatch_seq_trace (fun _ => false) 0 st0
        [mkDispatch 5, mkDispatch 3] = .ok [some 5, some 3] ∧
    ¬ List.Chain' (· ≤ ·) [(5 : Int), 3] := by
  constructor
  · rfl
  · norm_num [List.chain'_cons]

/-- Helper for C5: the final state of a run of well-formed DISPATCH
messages records the last message's s field. -/
theorem run_dispatches_getLast (listeners : String → Bool) (now : Rat) :
    ∀ (ss : List Int) (st : GState) (l : Int), ss.getLast? = some l →
      ∃ st', run_dispatches listeners now st (ss.map mkDispatch) = .ok st' ∧
        st'.sequence = some l := by
  intro ss
  induction ss with
  | nil => intro st l h; simp at h
  | cons s tail ih =>
    intro st l h
    cases tail with
    | nil =>
      simp only [List.getLast?_singleton, Option.some.injEq] at h
      subst h
      refine ⟨{ st with sequence := some s }, ?_, rfl⟩
      simp [run_dispatches, handle_data, mkDispatch, DISPATCH, pyInt,
        pyLower]
    | cons s2 tail2 =>
      rw [List.getLast?_cons_cons] at h
      obtain ⟨st', hrun, hseq⟩ :=
        ih { st with sequence := some s } l h
      refine ⟨st', ?_, hseq⟩
      simpa [run_dispatches, handle_data, mkDispatch, DISPATCH, pyInt,
        pyLower] using hrun

/-- Helper for C5: the recorded sequence after each well-formed DISPATCH
message is exactly that message's s field. -/
theorem dispatch_seq_trace_map (listeners : String → Bool) (now : Rat) :
    ∀ (ss : List Int) (st : GState),
      dispatch_seq_trace listeners now st (ss.map mkDispatch) =
        .ok (ss.map some) := by
  intro ss
  induction ss with
  | nil => intro st; rfl
  | cons s tail ih =>
    intro st
    simp [dispatch_seq_trace, handle_data, mkDispatch, DISPATCH, pyInt,
      pyLower, ih { st with sequence := some s }]

/-- C5 amended: after each well-formed DISPATCH (non-null s and t) the
recorded sequence equals that message's s field; hence after the last
message it equals the last s, and the run of recorded values is
non-decreasing exactly when the incoming s values are (the dispatcher
assigns, so it regresses whenever the input does). -/
theorem C5_sequence_assignment (listeners : String → Bool) (now : Rat)
    (st : GState) (ss : List Int) :
    dispatch_seq_trace listeners now st (ss.map mkDispatch) =
      .ok (ss.map some) ∧
    (∀ l, ss.getLast? = some l →
      ∃ st', run_dispatches listeners now st (ss.map mkDispatch) =
          .ok st' ∧ st'.sequence = some l) ∧
    (List.Chain' (· ≤ ·) ss →
      List.Chain' (fun a b => ∃ x y, a = some x ∧ b = some y ∧ x ≤ y)
        (ss.map some)) := by
  refine ⟨dispatch_seq_trace_map listeners now ss st,
    fun l h => run_dispatches_getLast listeners now ss st l h, fun h => ?_⟩
  rw [List.chain'_map]
  exact h.imp fun a b hab => ⟨a, b, rfl, rfl, hab⟩

/-- Witness for C5's amended theorem at a concrete run. -/
theorem C5_sequence_assignment_witness :
    dispatch_seq_trace (fun _ => false) 0 st0
        (([1, 2] : List Int).map mkDispatch) =
      .ok (([1, 2] : List Int).map some) ∧
    (∃ st', run_dispatches (fun _ => false) 0 st0
        (([1, 2] : List Int).map mkDispatch) = .ok st' ∧
      st'.sequence = some 2) ∧
    List.Chain' (fun a b => ∃ x y, a = some x ∧ b = some y ∧ x ≤ y)
      (([1, 2] : List Int).map some) :=
  ⟨(C5_sequence_assignment (fun _ => false) 0 st0 [1, 2]).1,
   (C5_sequence_assignment (fun _ => false) 0 st0 [1, 2]).2.1 2 rfl,
   (C5_sequence_assignment (fun _ => false) 0 st0 [1, 2]).2.2
     (by norm_num [List.chain'_cons])⟩

/-- C6: a binary frame shorter than 4 bytes or not ending in
00 00 FF FF yields no decoded message and keeps the accumulated bytes; a
subsequent frame ending in the marker decompresses the whole accumulated
buffer, yields exactly the one JSON document it encodes, and empties the
buffer. -/
theorem C6_frame_reassembly {J : Type}
    (decompress : List Nat → Except ZlibError (List Nat))
    (loadsBytes : List Nat → J) (loadsText : String → J)
    (b0 b1 b2 : List Nat) (payload : List Nat) (doc : J)
    (h1 : b1.length < 4 ∨ b1.drop (b1.length - 4) ≠ zlibFlushMarker)
    (h2 : ¬ (b2.length < 4 ∨ b2.drop (b2.length - 4) ≠ zlibFlushMarker))
    (hd : decompress (b0 ++ b1 ++ b2) = .ok payload)
    (hj : loadsBytes payload = doc) :
    parse_websocket_message decompress loadsBytes loadsText b0
        (.binary b1) = ⟨b0 ++ b1, none⟩ ∧
    parse_websocket_message decompress loadsBytes loadsText (b0 ++ b1)
        (.binary b2) = ⟨[], some doc⟩ := by
  constructor
  · simp [parse_websocket_message, if_pos h1]
  · have hd' : decompress (b0 ++ (b1 ++ b2)) = .ok payload := by
      rw [← List.append_assoc]; exact hd
    simp [parse_websocket_message, h2, hd', hj]

/-- Witness for C6 at a concrete split frame. -/
theorem C6_frame_reassembly_witness :
    parse_websocket_message (fun _ => .ok [42]) (fun l => l.length)
        (fun _ => 0) [] (.binary [9]) = ⟨[9], none⟩ ∧
    parse_websocket_message (fun _ => .ok [42]) (fun l => l.length)
        (fun _ => 0) [9] (.binary [0, 0, 255, 255]) = ⟨[], some 1⟩ :=
  C6_frame_reassembly (fun _ => .ok [42]) (fun l => l.length) (fun _ => 0)
    [] [9] [0, 0, 255, 255] [42] 1 (by decide) (by decide) rfl rfl

/-- Helper for C7: a close code outside the fatal table maps to no
exception. -/
theorem raise_close_codes_eq_none (code : Int)
    (h : code ∉ ([4004, 4010, 4011, 4012, 4013, 4014] : List Int)) :
    raise_close_codes code = none := by
  simp only [List.mem_cons, List.not_mem_nil, or_false, not_or] at h
  obtain ⟨h1, h2, h3, h4, h5, h6⟩ := h
  rw [raise_close_codes.eq_def]
  split <;> simp_all

/-- C7: close-code classification — 4004/4010/4011/4012/4013/4014 raise
the mapped fatal error (so no reconnect happens); 4009 resumes before any
classification; any other code reconnects via a full connect (sending a
fresh IDENTIFY) without raising. -/
theorem C7_close_code_classification (st : GState) :
    handle_close st 4004 =
      .error (.gw (.loginFailure "Token is not valid"), st) ∧
    handle_close st 4010 = .error (.gw (.gatewayError "Invalid shard"), st) ∧
    handle_close st 4011 =
      .error (.gw (.gatewayError "Sharding required"), st) ∧
    handle_close st 4012 =
      .error (.gw (.gatewayError "Invalid API version"), st) ∧
    handle_close st 4013 =
      .error (.gw (.gatewayError "Invalid intents"), st) ∧
    handle_close st 4014 =
      .error (.gw (.privilegedIntentsRequired "Disallowed intents"), st) ∧
    handle_close st 4009 = .ok (st, [.send (resumeMessage st)]) ∧
    (∀ code : Int, code ≠ 4009 →
      code ∉ ([4004, 4010, 4011, 4012, 4013, 4014] : List Int) →
      ∃ st', handle_close st code =
          .ok (st', [.send (identifyMessage st'), .spawnReceive]) ∧
        (identifyMessage st').op = IDENTIFY) := by
  refine ⟨rfl, rfl, rfl, rfl, rfl, rfl, rfl, ?_⟩
  intro code hne hmem
  refine ⟨reconnectState st, ?_, rfl⟩
  simp [handle_close, hne, raise_close_codes_eq_none code hmem,
    connect, send_identify, reconnectState]

/-- Witness for C7 at concrete codes (fatal 4004, transient 4000). -/
theorem C7_close_code_classification_witness :
    handle_close st0 4004 =
      .error (.gw (.loginFailure "Token is not valid"), st0) ∧
    ∃ st', handle_close st0 4000 =
        .ok (st', [.send (identifyMessage st'), .spawnReceive]) ∧
      (identifyMessage st').op = IDENTIFY :=
  ⟨(C7_close_code_classification st0).1,
   (C7_close_code_classification st0).2.2.2.2.2.2.2 4000 (by decide)
     (by decide)⟩

/-- C8: when decompressing the accumulated buffer fails with a zlib
error, `parse_websocket_message` returns no message instead of
propagating the exception (and an incomplete frame never reaches the
decompressor at all), so the receive loop sees "nothing arrived". -/
theorem C8_decompression_error_swallowed {J : Type}
    (decompress : List Nat → Except ZlibError (List Nat))
    (loadsBytes : List Nat → J) (loadsText : String → J)
    (buffer msg : List Nat) (e : ZlibError)
    (h : decompress (buffer ++ msg) = .error e) :
    (parse_websocket_message decompress loadsBytes loadsText buffer
      (.binary msg)).result = none := by
  rw [parse_websocket_message]
  split
  · rfl
  · rw [h]

/-- Witness for C8 with an always-failing decompressor. -/
theorem C8_decompression_error_swallowed_witness :
    (parse_websocket_message (J := Nat) (fun _ => .error .zlibError)
      (fun l => l.length) (fun _ => 0) [7]
      (.binary [0, 0, 255, 255])).result = none :=
  C8_decompression_error_swallowed (fun _ => .error .zlibError)
    (fun l => l.length) (fun _ => 0) [7] [0, 0, 255, 255] .zlibError rfl

/-- C9: `close` is a total function (it raises nothing); it always leaves
the decompression buffer empty; whenever a socket exists — in particular
on an already-closed session — it leaves the session marked not-connected;
and it is idempotent: closing an already-closed session changes
nothing. -/
theorem C9_close_idempotent (st : GState) (code code' : Int) :
    ((close_method st code).1).buffer = [] ∧
    (st.ws_exists = true → ((close_method st code).1).not_closed = false) ∧
    (close_method (close_method st code).1 code').1 =
      (close_method st code).1 := by
  by_cases h : st.ws_exists <;>
    simp [close_method, h]

/-- Witness for C9 on a concrete connected state. -/
theorem C9_close_idempotent_witness :
    ((close_method st0 4000).1).buffer = [] ∧
    ((close_method st0 4000).1).not_closed = false ∧
    (close_method (close_method st0 4000).1 4000).1 =
      (close_method st0 4000).1 :=
  ⟨(C9_close_idempotent st0 4000 4000).1,
   (C9_close_idempotent st0 4000 4000).2.1 rfl,
   (C9_close_idempotent st0 4000 4000).2.2⟩

/-- C10: a DISPATCH whose s field is null makes the dispatcher raise
`TypeError` at `int(data["s"])`, before the sequence is recorded or any
event is handed to the router — the state attached to the raised error is
unchanged and no effects were produced. -/
theorem C10_null_sequence_dispatch_raises (listeners : String → Bool)
    (now : Rat) (st : GState) (t : Option String) (d : DData) :
    handle_data listeners now st ⟨DISPATCH, none, t, d⟩ =
      .error (.py .typeError, st) := by
  simp [handle_data, pyInt]

end Melisa
